import Mathlib

/-!
Verification development for the Painel-do-Clima acquisition-and-consolidation
pipeline.  The definitions below are a shallow embedding of the Python sources
`backend/adaptabrasil_batch_ingestor.py`, `backend/process_resolution_files.py`
and `backend/process_city_files.py`: Python dictionaries become insertion-order
association lists, Python values that flow through `dict.get` become `PyVal`
(with `PyVal.none` standing for Python `None`), fallible steps return `Except`,
and the side-effecting loops become explicit folds over state.
-/

/-- Scalar Python values as they appear in the JSON records the pipeline
handles: `None`, strings and integers. -/
inductive PyVal where
  | none : PyVal
  | str : String → PyVal
  | int : Int → PyVal
  deriving DecidableEq, Repr

/-- Python `str(v)`: `str(None) = "None"`, strings are unchanged, integers
print in decimal. -/
def pyStr : PyVal → String
  | PyVal.none => "None"
  | PyVal.str s => s
  | PyVal.int n => toString n

/-- Python truthiness of a `PyVal`: `None`, `""` and `0` are falsy. -/
def pyTruthy : PyVal → Bool
  | PyVal.none => false
  | PyVal.str s => s ≠ ""
  | PyVal.int n => n ≠ 0

/-- Python `a or b`: `a` when truthy, otherwise `b`. -/
def pyOr (a b : PyVal) : PyVal := if pyTruthy a then a else b

/-- An insertion-ordered dictionary, as Python dicts are. -/
abbrev Dict (κ β : Type) := List (κ × β)

/-- Python `d.get(k)` (first — and only, for well-formed dicts — binding). -/
def dictGet {κ β : Type} [DecidableEq κ] (k : κ) : Dict κ β → Option β
  | [] => Option.none
  | (k2, v) :: rest => if k2 = k then some v else dictGet k rest

/-- Python `d[k] = v`: replace in place when the key exists (keeping its
position, as Python dicts do), otherwise append at the end. -/
def dictSet {κ β : Type} [DecidableEq κ] (k : κ) (v : β) : Dict κ β → Dict κ β
  | [] => [(k, v)]
  | (k2, v2) :: rest => if k2 = k then (k, v) :: rest else (k2, v2) :: dictSet k v rest

theorem dictGet_dictSet_self {κ β : Type} [DecidableEq κ] (k : κ) (v : β) (d : Dict κ β) :
    dictGet k (dictSet k v d) = some v := by
  induction d with
  | nil => simp [dictGet, dictSet]
  | cons kv rest ih =>
    obtain ⟨k2, v2⟩ := kv
    by_cases h : k2 = k
    · simp [dictGet, dictSet, h]
    · simp [dictGet, dictSet, h, ih]

theorem dictGet_dictSet_ne {κ β : Type} [DecidableEq κ] {k k2 : κ} (v : β) (d : Dict κ β)
    (h : k2 ≠ k) : dictGet k2 (dictSet k v d) = dictGet k2 d := by
  induction d with
  | nil => simp [dictGet, dictSet, Ne.symm h]
  | cons kv rest ih =>
    obtain ⟨k3, v3⟩ := kv
    by_cases h3 : k3 = k
    · subst h3
      simp [dictGet, dictSet, Ne.symm h]
    · simp only [dictSet, if_neg h3, dictGet]
      rw [ih]

/-! ## Retrying fetch orchestrator (`fetch_with_retries`)

The Python loop keeps an `attempt` counter starting at 0; on each failure it
increments `attempt`, sleeps `backoff ** attempt` seconds and loops while
`attempt < max_retries`; on exhaustion it logs an error and returns `None`.
The embedding returns the call result together with the number of invocations
of the operation and the ordered list of backoff sleep durations. -/

/-- One pass of the `while attempt < max_retries` loop, with `remaining`
iterations left and `attempt` failures so far.  The operation is modelled as a
function from the 0-based invocation index to `some` response or `none`
(raised exception). -/
def fetchWithRetriesGo {ρ : Type} (op : Nat → Option ρ) (backoff : Nat) :
    Nat → Nat → Option ρ × Nat × List Nat
  | _, 0 => (Option.none, 0, [])
  | attempt, remaining + 1 =>
    match op attempt with
    | some r => (some r, 1, [])
    | Option.none =>
      let wait := backoff ^ (attempt + 1)
      let rest := fetchWithRetriesGo op backoff (attempt + 1) remaining
      (rest.1, rest.2.1 + 1, wait :: rest.2.2)

/-- `fetch_with_retries` from `adaptabrasil_batch_ingestor.py`: result,
number of operation invocations, and the backoff sleeps performed. -/
def fetch_with_retries {ρ : Type} (op : Nat → Option ρ) (maxRetries backoff : Nat) :
    Option ρ × Nat × List Nat :=
  fetchWithRetriesGo op backoff 0 maxRetries

/-! ## Batch planner (`main` of the ingestor, lines 168–197) -/

/-- `get_all_brazilian_states` from the ingestor: the 27 state abbreviations. -/
def get_all_brazilian_states : List String :=
  ["AC", "AL", "AM", "AP", "BA", "CE", "DF", "ES", "GO", "MA",
   "MG", "MS", "MT", "PA", "PB", "PE", "PI", "PR", "RJ", "RN",
   "RO", "RR", "RS", "SC", "SE", "SP", "TO"]

/-- The smart state override of the ingestor's `main`: when `"regiao"` is among
the resolutions and the configured state list is not already the complete set,
`states` is replaced by the full list and exactly one override warning is
logged.  Returns the effective state list and the number of override events
logged. -/
def applyRegionalOverride (states resolutions : List String) : List String × Nat :=
  if "regiao" ∈ resolutions then
    if states.length < get_all_brazilian_states.length ∨
        ¬ states.toFinset = get_all_brazilian_states.toFinset then
      (get_all_brazilian_states, 1)
    else
      (states, 0)
  else
    (states, 0)

/-- One planned fetch task: `present` is `true` for a mapa-dados request and
`false` for a future-trends request. -/
structure FetchTask where
  present : Bool
  resolution : String
  state : String
  indicator : String
  year : Nat
  deriving DecidableEq, Repr

/-- The tasks executed for one resolution: for each state, all present
indicator/year pairs then all future-trend pairs (the two inner loops of the
ingestor's `main`). -/
def tasksForResolution (states : List String) (present future : List (String × Nat))
    (r : String) : List FetchTask :=
  states.flatMap fun s =>
    present.map (fun p => ⟨true, r, s, p.1, p.2⟩) ++
    future.map (fun p => ⟨false, r, s, p.1, p.2⟩)

/-- The full ordered task list of a run: the state override is applied once,
before the resolution loop, so the effective state list is shared by every
resolution. -/
def planTasks (cfgStates resolutions : List String)
    (present future : List (String × Nat)) : List FetchTask :=
  resolutions.flatMap
    (tasksForResolution (applyRegionalOverride cfgStates resolutions).1 present future)

/-! ## Fragment writer (ingestor `main`, lines 239–249 and 276–316) -/

/-- `os.path.join` for the simple relative paths the pipeline builds. -/
def joinPath (a b : String) : String := a ++ "/" ++ b

/-- Filename used for a persisted present-value (mapa-dados) response. -/
def present_fragment_filename (resolution state indicator_id : String) (year : Nat) :
    String :=
  "mapa-dados_" ++ resolution ++ "_" ++ state ++ "_" ++ indicator_id ++ "_" ++
    toString year ++ ".json"

/-- Filename used for a persisted future-trends response. -/
def future_fragment_filename (resolution state indicator_id : String) (year : Nat) :
    String :=
  "future_trends_" ++ resolution ++ "_" ++ state ++ "_" ++ indicator_id ++ "_" ++
    toString year ++ ".json"

/-- The effective output directory of the ingestor: regional-resolution
fragments go under a `BR` subdirectory, all other resolutions under the
configured output directory itself. -/
def effective_output_dir (output_dir resolution : String) : String :=
  if resolution = "regiao" then joinPath output_dir "BR" else output_dir

/-- Full path under which a present-value response is saved. -/
def present_fragment_path (output_dir resolution state indicator_id : String)
    (year : Nat) : String :=
  joinPath (effective_output_dir output_dir resolution)
    (present_fragment_filename resolution state indicator_id year)

/-- Full path under which a future-trends response is saved. -/
def future_fragment_path (output_dir resolution state indicator_id : String)
    (year : Nat) : String :=
  joinPath (effective_output_dir output_dir resolution)
    (future_fragment_filename resolution state indicator_id year)

instance {ε α : Type} [DecidableEq ε] [DecidableEq α] : DecidableEq (Except ε α) := fun a b =>
  match a, b with
  | Except.error e1, Except.error e2 =>
    if h : e1 = e2 then Decidable.isTrue (congrArg Except.error h)
    else Decidable.isFalse (fun hc => h (Except.error.inj hc))
  | Except.error _, Except.ok _ => Decidable.isFalse (fun hc => Except.noConfusion hc)
  | Except.ok _, Except.error _ => Decidable.isFalse (fun hc => Except.noConfusion hc)
  | Except.ok a1, Except.ok a2 =>
    if h : a1 = a2 then Decidable.isTrue (congrArg Except.ok h)
    else Decidable.isFalse (fun hc => h (Except.ok.inj hc))

/-! ## Batch execution loop (ingestor `main`, lines 266–320)

Per task: the retrying fetch either yields a response or the `None` sentinel.
On a response, `save_json` is called once; it is not wrapped in any handler, so
a raised I/O error propagates out of the loop and ends the run.  On the `None`
sentinel the task is counted as failed and the loop continues.  The embedding
returns (error escaping the loop, successes, failures, tasks whose write was
attempted, in order). -/

def runBatch {ρ : Type} (fetch : FetchTask → Option ρ)
    (write : FetchTask → Except String Unit) :
    List FetchTask → Option String × Nat × Nat × List FetchTask
  | [] => (Option.none, 0, 0, [])
  | t :: rest =>
    match fetch t with
    | Option.none =>
      let r := runBatch fetch write rest
      (r.1, r.2.1, r.2.2.1 + 1, r.2.2.2)
    | some _ =>
      match write t with
      | Except.error e => (some e, 0, 0, [t])
      | Except.ok _ =>
        let r := runBatch fetch write rest
        (r.1, r.2.1 + 1, r.2.2.1, t :: r.2.2.2)

/-! ## Consolidation engine data model (`process_resolution_files.py`) -/

/-- One record of a present-value (mapa-dados) fragment: a JSON object,
kept as an ordered field list. -/
abbrev PresentRec := Dict String PyVal

/-- Python `rec.get(k)`: the stored value, or `None` when the key is absent. -/
def recGet (rec : PresentRec) (k : String) : PyVal :=
  (dictGet k rec).getD PyVal.none

/-- The value stored under a future-trends projection year. -/
structure TrendVal where
  value : PyVal
  valuecolor : PyVal
  valuelabel : PyVal
  deriving DecidableEq, Repr

/-- One indicator observation appended to an entity: the record's fields other
than `id`/`name`/`nome`, plus the normalized `indicator_id` and `year` and the
`future_trends` map (empty until the merge phase). -/
structure Indicator where
  fields : Dict String PyVal
  indicator_id : PyVal
  year : PyVal
  future_trends : Dict String TrendVal
  deriving DecidableEq, Repr

/-- A consolidated entity record. -/
structure Entity where
  id : PyVal
  name : PyVal
  geocod_ibge : PyVal
  indicators : List Indicator
  deriving DecidableEq, Repr

/-- The nested accumulator `resolution_entity_map`:
resolution → state → entity id → entity. -/
abbrev ResMap := Dict String (Dict String (Dict String Entity))

/-- The entity record created the first time an id is seen (lines 69–75):
name falls back from `name` to `nome` to the stringified id via Python `or`. -/
def newEntity (rec : PresentRec) (entity_id : String) : Entity :=
  { id := recGet rec "id"
    name := pyOr (recGet rec "name") (pyOr (recGet rec "nome") (PyVal.str entity_id))
    geocod_ibge := recGet rec "geocod_ibge"
    indicators := [] }

/-- The indicator entry built from one record (lines 77–81). -/
def mkIndicator (rec : PresentRec) : Indicator :=
  { fields := rec.filter fun kv => !(kv.1 == "id" || kv.1 == "name" || kv.1 == "nome")
    indicator_id := pyOr (recGet rec "indicator_id")
      (pyOr (recGet rec "indicador_id") (recGet rec "indicador"))
    year := pyOr (recGet rec "year") (recGet rec "ano")
    future_trends := [] }

/-- The entity-level part of the record loop (lines 69–82): the entity slot is
created when absent and the new indicator entry is appended in place. -/
def appendObservation (rec : PresentRec) (eid : String) (sm0 : Dict String Entity) :
    Dict String Entity :=
  let sm1 := if (dictGet eid sm0).isNone then dictSet eid (newEntity rec eid) sm0 else sm0
  match dictGet eid sm1 with
  | some ent =>
    dictSet eid { ent with indicators := ent.indicators ++ [mkIndicator rec] } sm1
  | Option.none => sm1

/-- Processing of one record of a present-value fragment (lines 60–82): the
stringified id guards the record, the state and entity slots are created on
demand, and the new indicator entry is appended to the entity. -/
def ingestPresentRec (res st : String) (m : ResMap) (rec : PresentRec) : ResMap :=
  let eid := pyStr (recGet rec "id")
  if eid = "" then m
  else
    let rm0 := (dictGet res m).getD []
    let rm1 := if (dictGet st rm0).isNone then dictSet st [] rm0 else rm0
    let sm0 := (dictGet st rm1).getD []
    dictSet res (dictSet st (appendObservation rec eid sm0) rm1) m

/-- One present-value fragment file: the underscore-split basename and the
parse result of its JSON content. -/
structure PresentFile where
  path : String
  nameParts : List String
  content : Except String (List PresentRec)
  deriving DecidableEq, Repr

/-- Processing of one present-value fragment (lines 42–84): files whose split
basename has fewer than 4 parts are skipped with a log; otherwise the file is
loaded — `load_json` has no handler, so a parse error propagates — the
resolution slot is created, and every record is ingested. -/
def processPresentFile (m : ResMap) (f : PresentFile) : Except String ResMap :=
  if f.nameParts.length < 4 then Except.ok m
  else
    let res := f.nameParts.getD 1 ""
    let st := f.nameParts.getD 2 ""
    match f.content with
    | Except.error e => Except.error e
    | Except.ok recs =>
      let m1 := if (dictGet res m).isNone then dictSet res [] m else m
      Except.ok (recs.foldl (ingestPresentRec res st) m1)

/-- Phase 1: fold all present-value fragments, propagating any parse error. -/
def phase1 (m : ResMap) : List PresentFile → Except String ResMap
  | [] => Except.ok m
  | f :: rest =>
    match processPresentFile m f with
    | Except.error e => Except.error e
    | Except.ok m2 => phase1 m2 rest

/-- One entity entry of a scenario's `data` list in a future-trends fragment. -/
structure FutureRec where
  id : PyVal
  value : PyVal
  deriving DecidableEq, Repr

/-- A scenario object that passed the `isinstance(..., dict) and "data" in ...`
check; scenarios failing the check are modelled as `Option.none` below. -/
structure ScenarioObj where
  valuecolor : PyVal
  valuelabel : PyVal
  data : List FutureRec
  deriving DecidableEq, Repr

/-- The composite lookup key:
(resolution, state, entity, indicator, year, scenario). -/
abbrev FKey := String × String × String × String × String × String

/-- The future-trends lookup built in phase 2. -/
abbrev Lookup := Dict FKey TrendVal

/-- One future-trends fragment file, with the fields parsed from its filename
and the parse result of its JSON content (year → scenario → object). -/
structure FutureFile where
  path : String
  resolution : String
  state : String
  indicator : String
  year : String
  content : Except String (Dict String (Dict String (Option ScenarioObj)))
  deriving DecidableEq, Repr

/-- Phase-2 processing of one future-trends fragment (lines 89–120): when the
filename year is a key of the JSON, every well-formed scenario's entries with a
non-empty stringified id and a non-`None` value are written into the lookup by
plain assignment — a duplicate key silently overwrites (last-write-wins). -/
def ingestFutureFile (lk : Lookup) (f : FutureFile) : Except String Lookup :=
  match f.content with
  | Except.error e => Except.error e
  | Except.ok j =>
    Except.ok <|
      match dictGet f.year j with
      | Option.none => lk
      | some scMap =>
        scMap.foldl
          (fun lk1 scPair =>
            match scPair.2 with
            | Option.none => lk1
            | some obj =>
              obj.data.foldl
                (fun lk2 rec =>
                  let ec := pyStr rec.id
                  if ec = "" ∨ rec.value = PyVal.none then lk2
                  else
                    dictSet (f.resolution, f.state, ec, f.indicator, f.year, scPair.1)
                      ⟨rec.value, obj.valuecolor, obj.valuelabel⟩ lk2)
                lk1)
          lk

/-- Phase 2: fold all future-trends fragments into the lookup. -/
def phase2 (lk : Lookup) : List FutureFile → Except String Lookup
  | [] => Except.ok lk
  | f :: rest =>
    match ingestFutureFile lk f with
    | Except.error e => Except.error e
    | Except.ok lk2 => phase2 lk2 rest

/-! ## Phase 3 — merge (lines 137–145) -/

/-- The fixed projection years scanned by the merge loop. -/
def futureYears : List String := ["2030", "2050"]

/-- The fixed scenario priority order scanned by the merge loop. -/
def scenarioOrder : List String := ["verylow", "low", "mid", "high", "veryhigh"]

/-- The inner `for scenario in [...]` loop with its `break`: the first scenario
in the given list whose composite key is in the lookup yields its entry. -/
def scanScenarios (lk : Lookup) (res st ec iid yr : String) : List String → Option TrendVal
  | [] => Option.none
  | sc :: rest =>
    match dictGet (res, st, ec, iid, yr, sc) lk with
    | some v => some v
    | Option.none => scanScenarios lk res st ec iid yr rest

/-- The merge step for one indicator observation: for each projection year, the
first scenario hit (if any) is stored under that year in `future_trends`. -/
def mergeIndicator (lk : Lookup) (res st ec : String) (ind : Indicator) : Indicator :=
  let iid := pyStr ind.indicator_id
  let ft := futureYears.foldl
    (fun ft yr =>
      match scanScenarios lk res st ec iid yr scenarioOrder with
      | some v => dictSet yr v ft
      | Option.none => ft)
    ind.future_trends
  { ind with future_trends := ft }

/-- Phase 3 over the whole accumulator: every indicator of every entity is
merged against the lookup. -/
def mergePhase (lk : Lookup) (m : ResMap) : ResMap :=
  m.map fun rp =>
    (rp.1, rp.2.map fun sp =>
      (sp.1, sp.2.map fun ep =>
        (ep.1, { ep.2 with
                  indicators := ep.2.indicators.map (mergeIndicator lk rp.1 sp.1 ep.1) })))

/-! ## Phase 4 — materialization (lines 147–200) -/

/-- `resolution_names` (lines 28–34). -/
def resolution_names : Dict String String :=
  [("municipio", "city"), ("microrregiao", "microregion"), ("mesorregiao", "mesoregion"),
   ("estado", "state"), ("regiao", "region")]

/-- `resolution_names.get(resolution, resolution)`. -/
def entityTypeName (res : String) : String := (dictGet res resolution_names).getD res

/-- One manifest (entity filelist) entry (lines 183–189). -/
structure ManifestEntry where
  name : PyVal
  state : String
  file : String
  geocod_ibge : PyVal
  resolution : String
  deriving DecidableEq, Repr

/-- The resolution-aware entity filelist. -/
abbrev Manifest := Dict String (Dict String ManifestEntry)

/-- Content of a file written by the consolidation run. -/
inductive FileData where
  | entity : Entity → FileData
  | manifest : Manifest → FileData
  deriving DecidableEq, Repr

/-- Phase 4 write of one entity (lines 171–189): the output goes to the `BR`
directory for the regional resolution and to the state directory otherwise,
named from the entity type and the entity's stored `geocod_ibge` value, and a
manifest entry is recorded under (resolution, entity code). -/
def writeEntity (dataDir res st ec : String) (ent : Entity)
    (acc : List (String × FileData) × Manifest) : List (String × FileData) × Manifest :=
  let etype := entityTypeName res
  let geocode := ent.geocod_ibge
  let fname := etype ++ "_" ++ pyStr geocode ++ ".json"
  let outDir := if res = "regiao" then joinPath dataDir "BR" else joinPath dataDir st
  let rel := if res ≠ "regiao" then st ++ "/" ++ fname else "BR/" ++ fname
  let entry : ManifestEntry :=
    { name := ent.name, state := st, file := rel, geocod_ibge := geocode, resolution := res }
  let mf := acc.2
  let mf1 := if (dictGet res mf).isNone then dictSet res [] mf else mf
  let mf2 := dictSet res (dictSet ec entry ((dictGet res mf1).getD [])) mf1
  (acc.1 ++ [(joinPath outDir fname, FileData.entity ent)], mf2)

/-- Phase 4 over the accumulator: entity files in map iteration order, then the
manifest file. -/
def phase4 (dataDir : String) (m : ResMap) : List (String × FileData) :=
  let acc := m.foldl
    (fun acc rp =>
      rp.2.foldl
        (fun acc sp =>
          sp.2.foldl (fun acc ep => writeEntity dataDir rp.1 sp.1 ep.1 ep.2 acc) acc)
        acc)
    ([], [])
  acc.1 ++ [(joinPath dataDir "entity_filelist.json", FileData.manifest acc.2)]

/-- The whole consolidation run of `process_resolution_files.py` as a function
from the fragment files to the ordered list of (path, content) writes:
phase 1, phase 2, phase 3, phase 4. -/
def consolidate (dataDir : String) (presentFiles : List PresentFile)
    (futureFiles : List FutureFile) : Except String (List (String × FileData)) :=
  match phase1 [] presentFiles with
  | Except.error e => Except.error e
  | Except.ok m =>
    match phase2 [] futureFiles with
    | Except.error e => Except.error e
    | Except.ok lk => Except.ok (phase4 dataDir (mergePhase lk m))

/-! ## Filesystem model for idempotence -/

/-- A filesystem as a partial map from path to file content; a write
overwrites. -/
def applyWrites (fs : String → Option FileData) (ws : List (String × FileData)) :
    String → Option FileData :=
  ws.foldl (fun fs2 kv => fun p => if p = kv.1 then some kv.2 else fs2 p) fs

/-- The last value written to path `p` by a write list, if any. -/
def lastVal (p : String) : List (String × FileData) → Option FileData
  | [] => Option.none
  | kv :: rest =>
    match lastVal p rest with
    | some v => some v
    | Option.none => if kv.1 = p then some kv.2 else Option.none

/-! ## Effects and archiving (lines 203–216) -/

/-- An externally visible filesystem effect of the consolidation run. -/
inductive Effect where
  | write : String → FileData → Effect
  | move : String → String → Effect
  deriving DecidableEq, Repr

/-- Whether an effect is a file write. -/
def Effect.isWrite : Effect → Bool
  | Effect.write _ _ => true
  | Effect.move _ _ => false

/-- Whether an effect is an archive move. -/
def Effect.isMove : Effect → Bool
  | Effect.write _ _ => false
  | Effect.move _ _ => true

/-- The fragment files consumed by a run: present files then future files, as
globbed. -/
def consumedPaths (presentFiles : List PresentFile) (futureFiles : List FutureFile) :
    List String :=
  presentFiles.map (fun f => f.path) ++ futureFiles.map (fun f => f.path)

/-- The ordered effect trace of a consolidation run: all entity-file and
manifest writes, then one rename per consumed fragment into the downloads
archive directory. -/
def runEffects (dataDir : String) (presentFiles : List PresentFile)
    (futureFiles : List FutureFile) : Except String (List Effect) :=
  (consolidate dataDir presentFiles futureFiles).map fun ws =>
    ws.map (fun w => Effect.write w.1 w.2) ++
      (consumedPaths presentFiles futureFiles).map
        (fun f => Effect.move f (joinPath (joinPath dataDir "downloads") f))

/-- The directories touched by the archive loop: whether each fragment name is
present in the consolidation source directory and in the downloads archive, and
how many move warnings have been printed. -/
structure ArchState where
  source : String → Bool
  archive : String → Bool
  warnings : Nat

/-- One iteration of the archive loop: `os.rename` atomically moves the file
when it succeeds; on any exception a warning is printed and the file is left
in place. -/
def moveOne (ok : String → Bool) (st : ArchState) (f : String) : ArchState :=
  if ok f then
    { source := fun p => if p = f then false else st.source p
      archive := fun p => if p = f then true else st.archive p
      warnings := st.warnings }
  else
    { st with warnings := st.warnings + 1 }

/-- The archive loop over all consumed fragment files. -/
def archivePhase (ok : String → Bool) (files : List String) (st : ArchState) : ArchState :=
  files.foldl (moveOne ok) st

/-! ## Observation count accessor used by the phase-1 theorems -/

/-- Number of indicator observations stored for `(res, st, eid)`; 0 when the
entity (or its state or resolution slot) is absent. -/
def obsCount (m : ResMap) (res st eid : String) : Nat :=
  ((((dictGet res m).bind fun rm => dictGet st rm).bind fun sm => dictGet eid sm).map
      fun ent => ent.indicators.length).getD 0

/-! # Claims -/

/-- Claim C3, counterexample: with `max_attempts = 3` and an always-failing
operation, the orchestrator performs 3 backoff sleeps, not the 2 the claim
states — the loop sleeps after every failed attempt, including the last. -/
theorem claim_C3_counterexample :
    (fetch_with_retries (fun _ => (Option.none : Option Nat)) 3 2).2.2.length ≠ 2 := by
  decide

/-- Claim C3 (amended): for an operation failing on every invocation,
`fetch_with_retries` with `max_retries = 3` invokes the operation exactly
3 times, performs exactly 3 backoff sleeps of `backoff ^ attempt` time units
(attempt counting starting at 1, one sleep after every failed attempt
including the last), never propagates an error, and returns the `None`
sentinel. -/
theorem claim_C3_retry_exhaustion {ρ : Type} (op : Nat → Option ρ) (backoff : Nat)
    (h : ∀ k, op k = Option.none) :
    fetch_with_retries op 3 backoff =
      (Option.none, 3, [backoff ^ 1, backoff ^ 2, backoff ^ 3]) := by
  simp [fetch_with_retries, fetchWithRetriesGo, h]

/-- Witness for the amended claim C3 at a concrete always-failing operation. -/
theorem claim_C3_witness :
    fetch_with_retries (fun _ => (Option.none : Option Nat)) 3 2 =
      (Option.none, 3, [2, 4, 8]) :=
  claim_C3_retry_exhaustion (fun _ => Option.none) 2 (fun _ => rfl)

/-- Claim C5, counterexample: when persisting the first task's response fails,
the batch does not continue to the next task — the error escapes the loop, the
second task's write is never attempted and nothing further is counted. -/
theorem claim_C5_counterexample :
    runBatch (fun _ => some (0 : Nat))
        (fun t => if t.indicator = "2" then Except.error "disk full" else Except.ok ())
        [⟨true, "municipio", "PR", "2", 2020⟩, ⟨true, "municipio", "PR", "3", 2020⟩] =
      (some "disk full", 0, 0, [⟨true, "municipio", "PR", "2", 2020⟩]) ∧
    (⟨true, "municipio", "PR", "3", 2020⟩ : FetchTask) ∉
      (runBatch (fun _ => some (0 : Nat))
        (fun t => if t.indicator = "2" then Except.error "disk full" else Except.ok ())
        [⟨true, "municipio", "PR", "2", 2020⟩, ⟨true, "municipio", "PR", "3", 2020⟩]).2.2.2 := by
  decide

/-- Claim C5 (amended): a write error is not retried — the task's write is
attempted exactly once — but it is fatal to the whole run, not just to that
task: the error propagates out of the batch loop and no later task is
processed. -/
theorem claim_C5_write_error_aborts {ρ : Type} (fetch : FetchTask → Option ρ)
    (write : FetchTask → Except String Unit) (t : FetchTask) (rest : List FetchTask)
    (r : ρ) (e : String) (hf : fetch t = some r) (hw : write t = Except.error e) :
    runBatch fetch write (t :: rest) = (some e, 0, 0, [t]) := by
  simp [runBatch, hf, hw]

/-- Witness for the amended claim C5 at concrete tasks. -/
theorem claim_C5_witness :
    runBatch (fun _ => some (0 : Nat)) (fun _ => Except.error "disk full")
        [⟨true, "municipio", "PR", "2", 2020⟩, ⟨true, "estado", "RS", "3", 2021⟩] =
      (some "disk full", 0, 0, [⟨true, "municipio", "PR", "2", 2020⟩]) :=
  claim_C5_write_error_aborts (fun _ => some 0) (fun _ => Except.error "disk full")
    ⟨true, "municipio", "PR", "2", 2020⟩ [⟨true, "estado", "RS", "3", 2021⟩] 0 "disk full"
    rfl rfl

/-- Claim C6, counterexample: with configured states `["PR"]` and resolutions
`["municipio", "regiao"]`, the override replaces the state list for the whole
run, so even the `municipio` tasks use state `"AC"`, which was not configured —
contrary to the claim that other resolutions keep the original states. -/
theorem claim_C6_counterexample :
    (⟨true, "municipio", "AC", "2", 2020⟩ : FetchTask) ∈
      planTasks ["PR"] ["municipio", "regiao"] [("2", 2020)] [] ∧
    "AC" ∉ (["PR"] : List String) := by
  decide

/-- Claim C6 (amended): when the resolutions include `"regiao"` and the
configured state list is not already the complete set, the planner overrides
the state list to all 27 states for the entire run — every resolution's tasks
use the overridden list — logging exactly one override event; when the
configured list already equals the full enumerated list, no override occurs. -/
theorem claim_C6_regional_override (states resolutions : List String)
    (present future : List (String × Nat)) :
    ("regiao" ∈ resolutions →
      (states.length < get_all_brazilian_states.length ∨
        ¬ states.toFinset = get_all_brazilian_states.toFinset) →
      applyRegionalOverride states resolutions = (get_all_brazilian_states, 1) ∧
      planTasks states resolutions present future =
        resolutions.flatMap (tasksForResolution get_all_brazilian_states present future)) ∧
    (states = get_all_brazilian_states →
      applyRegionalOverride states resolutions = (states, 0)) := by
  constructor
  · intro h1 h2
    have hov : applyRegionalOverride states resolutions = (get_all_brazilian_states, 1) := by
      unfold applyRegionalOverride
      rw [if_pos h1, if_pos h2]
    exact ⟨hov, by simp [planTasks, hov]⟩
  · intro h
    subst h
    unfold applyRegionalOverride
    by_cases hr : "regiao" ∈ resolutions
    · simp [hr]
    · simp [hr]

/-- Witness for the amended claim C6: a concrete overriding run and a concrete
already-complete run. -/
theorem claim_C6_witness :
    applyRegionalOverride ["PR"] ["municipio", "regiao"] = (get_all_brazilian_states, 1) ∧
    applyRegionalOverride get_all_brazilian_states ["regiao"] =
      (get_all_brazilian_states, 0) :=
  ⟨((claim_C6_regional_override ["PR"] ["municipio", "regiao"] [("2", 2020)] []).1
      (by decide) (Or.inl (by decide))).1,
    (claim_C6_regional_override get_all_brazilian_states ["regiao"] [] []).2 rfl⟩

/-- Claim C9, counterexample: a present-value response for
(municipio, PR, 2, 2020) is persisted as `mapa-dados_municipio_PR_2_2020.json`,
not as `present_municipio_PR_2_2020.json` as the claim states. -/
theorem claim_C9_counterexample :
    present_fragment_filename "municipio" "PR" "2" 2020 ≠
      "present_municipio_PR_2_2020.json" ∧
    present_fragment_filename "municipio" "PR" "2" 2020 =
      "mapa-dados_municipio_PR_2_2020.json" := by
  constructor
  · decide
  · rfl

/-- Claim C9 (amended): fetched responses are persisted under the
deterministic names `mapa-dados_{resolution}_{state}_{indicator_id}_{year}.json`
(present values) and `future_trends_{resolution}_{state}_{indicator_id}_{year}.json`
(future trends), and macro-region (`regiao`) fragments are written under the
synthetic nationwide `BR` subdirectory rather than a per-state one. -/
theorem claim_C9_fragment_naming (d r s i : String) (y : Nat) :
    (r ≠ "regiao" →
      present_fragment_path d r s i y =
        joinPath d ("mapa-dados_" ++ r ++ "_" ++ s ++ "_" ++ i ++ "_" ++
          toString y ++ ".json") ∧
      future_fragment_path d r s i y =
        joinPath d ("future_trends_" ++ r ++ "_" ++ s ++ "_" ++ i ++ "_" ++
          toString y ++ ".json")) ∧
    present_fragment_path d "regiao" s i y =
      joinPath (joinPath d "BR") ("mapa-dados_" ++ "regiao" ++ "_" ++ s ++ "_" ++ i ++
        "_" ++ toString y ++ ".json") ∧
    future_fragment_path d "regiao" s i y =
      joinPath (joinPath d "BR") ("future_trends_" ++ "regiao" ++ "_" ++ s ++ "_" ++ i ++
        "_" ++ toString y ++ ".json") := by
  refine ⟨fun h => ⟨?_, ?_⟩, ?_, ?_⟩
  · simp [present_fragment_path, effective_output_dir, present_fragment_filename, h]
  · simp [future_fragment_path, effective_output_dir, future_fragment_filename, h]
  · simp [present_fragment_path, effective_output_dir, present_fragment_filename]
  · simp [future_fragment_path, effective_output_dir, future_fragment_filename]

/-- Witness for the amended claim C9 at concrete arguments. -/
theorem claim_C9_witness :
    present_fragment_path "out" "municipio" "PR" "2" 2020 =
      joinPath "out" ("mapa-dados_" ++ "municipio" ++ "_" ++ "PR" ++ "_" ++ "2" ++ "_" ++
        toString 2020 ++ ".json") ∧
    future_fragment_path "out" "municipio" "PR" "2" 2020 =
      joinPath "out" ("future_trends_" ++ "municipio" ++ "_" ++ "PR" ++ "_" ++ "2" ++
        "_" ++ toString 2020 ++ ".json") :=
  (claim_C9_fragment_naming "out" "municipio" "PR" "2" 2020).1 (by decide)

/-- A well-formed present-value fragment used by concrete runs. -/
def pfSample (indicator : String) (eid : String) (value : Int) : PresentFile :=
  { path := "mapa-dados_municipio_PR_" ++ indicator ++ "_2020.json"
    nameParts := ["mapa-dados", "municipio", "PR", indicator, "2020.json"]
    content := Except.ok
      [[("id", PyVal.str eid), ("value", PyVal.int value),
        ("indicator_id", PyVal.str indicator), ("year", PyVal.int 2020)]] }

/-- A present-value fragment whose JSON content does not parse. -/
def pfBadJson : PresentFile :=
  { path := "mapa-dados_municipio_PR_3_2020.json"
    nameParts := ["mapa-dados", "municipio", "PR", "3", "2020.json"]
    content := Except.error "Expecting value: line 1 column 1 (char 0)" }

/-- Claim C4, counterexample: a fragment with malformed JSON content aborts the
whole consolidation run — the error propagates out of `load_json`, and the
remaining well-formed fragment is never consolidated. -/
theorem claim_C4_counterexample :
    consolidate "data" [pfSample "2" "1" 10, pfBadJson, pfSample "4" "1" 20] [] =
      Except.error "Expecting value: line 1 column 1 (char 0)" := by
  rfl

/-- Claim C4 (amended): only a fragment whose filename does not split into the
expected number of underscore parts is skipped (with a log) while consolidation
of the remaining fragments continues; a fragment whose content is malformed
JSON raises out of `load_json` uncaught and aborts the entire consolidation
run, leaving the remaining fragments unconsolidated. -/
theorem claim_C4_malformed_fragment (f : PresentFile) (rest : List PresentFile)
    (m : ResMap) :
    (f.nameParts.length < 4 → phase1 m (f :: rest) = phase1 m rest) ∧
    (∀ e, 4 ≤ f.nameParts.length → f.content = Except.error e →
      phase1 m (f :: rest) = Except.error e) := by
  constructor
  · intro h
    simp [phase1, processPresentFile, h]
  · intro e h1 h2
    have h3 : ¬ f.nameParts.length < 4 := by omega
    simp [phase1, processPresentFile, h3, h2]

/-- Witness for the amended claim C4: a short-named fragment is skipped and a
bad-JSON fragment aborts, at concrete inputs. -/
theorem claim_C4_witness :
    phase1 [] [⟨"odd.json", ["odd.json"], Except.ok []⟩, pfSample "2" "1" 10] =
      phase1 [] [pfSample "2" "1" 10] ∧
    phase1 [] [pfBadJson, pfSample "2" "1" 10] =
      Except.error "Expecting value: line 1 column 1 (char 0)" :=
  ⟨(claim_C4_malformed_fragment ⟨"odd.json", ["odd.json"], Except.ok []⟩
      [pfSample "2" "1" 10] []).1 (by decide),
    (claim_C4_malformed_fragment pfBadJson [pfSample "2" "1" 10] []).2
      "Expecting value: line 1 column 1 (char 0)" (by decide) rfl⟩

/-- A single-scenario, single-entity future-trends fragment. -/
def ffSingle (res st ind yr sc : String) (eid v vcol vlab : PyVal) : FutureFile :=
  { path := "future_trends_" ++ res ++ "_" ++ st ++ "_" ++ ind ++ "_" ++ yr ++ ".json"
    resolution := res
    state := st
    indicator := ind
    year := yr
    content := Except.ok [(yr, [(sc, some ⟨vcol, vlab, [⟨eid, v⟩]⟩)])] }

/-- Claim C8 (confirmed): when two future-trend entries produce the same
composite key, the one processed later silently overwrites the earlier one in
the lookup — the result holds exactly the later entry's values, no error is
raised and no merging occurs. -/
theorem claim_C8_last_write_wins (res st ind yr sc : String)
    (eid v1 v2 c1 l1 c2 l2 : PyVal) (h1 : ¬ pyStr eid = "")
    (h2 : v1 ≠ PyVal.none) (h3 : v2 ≠ PyVal.none) :
    phase2 [] [ffSingle res st ind yr sc eid v1 c1 l1,
               ffSingle res st ind yr sc eid v2 c2 l2] =
      Except.ok [((res, st, pyStr eid, ind, yr, sc), ⟨v2, c2, l2⟩)] := by
  simp [phase2, ingestFutureFile, ffSingle, dictGet, dictSet, h1, h2, h3]

/-- Witness for claim C8 at concrete values. -/
theorem claim_C8_witness :
    phase2 [] [ffSingle "municipio" "PR" "2" "2030" "mid" (PyVal.str "41")
                 (PyVal.int 3) (PyVal.str "ill") (PyVal.str "Low"),
               ffSingle "municipio" "PR" "2" "2030" "mid" (PyVal.str "41")
                 (PyVal.int 5) (PyVal.str "red") (PyVal.str "High")] =
      Except.ok [(("municipio", "PR", "41", "2", "2030", "mid"),
        ⟨PyVal.int 5, PyVal.str "red", PyVal.str "High"⟩)] :=
  claim_C8_last_write_wins "municipio" "PR" "2" "2030" "mid" (PyVal.str "41")
    (PyVal.int 3) (PyVal.int 5) (PyVal.str "ill") (PyVal.str "Low") (PyVal.str "red")
    (PyVal.str "High") (by decide) (by decide) (by decide)

/-- The scenario scan returns the entry of scenario `n` whenever all
earlier-priority scenarios miss the lookup and scenario `n` hits it. -/
theorem scan_first_hit (L : List String) (lk : Lookup) (res st ec iid yr : String) :
    ∀ n, n < L.length →
      (∀ m, m < n → dictGet (res, st, ec, iid, yr, L.getD m "") lk = Option.none) →
      (dictGet (res, st, ec, iid, yr, L.getD n "") lk).isSome →
      scanScenarios lk res st ec iid yr L =
        dictGet (res, st, ec, iid, yr, L.getD n "") lk := by
  induction L with
  | nil =>
    intro n hn
    simp at hn
  | cons sc rest ih =>
    intro n hn hmiss hhit
    cases n with
    | zero =>
      rw [List.getD_cons_zero] at hhit ⊢
      cases hgd : dictGet (res, st, ec, iid, yr, sc) lk with
      | none => rw [hgd] at hhit; simp at hhit
      | some v => simp [scanScenarios, hgd]
    | succ k =>
      have h0 : dictGet (res, st, ec, iid, yr, sc) lk = Option.none := by
        have := hmiss 0 (Nat.succ_pos k)
        rwa [List.getD_cons_zero] at this
      rw [List.getD_cons_succ] at hhit
      simp only [scanScenarios, h0]
      rw [List.getD_cons_succ]
      exact ih k (by simpa using hn)
        (fun m hm => by
          have := hmiss (m + 1) (by omega)
          rwa [List.getD_cons_succ] at this)
        hhit

/-- The scenario scan misses when every scenario misses the lookup. -/
theorem scan_all_none (L : List String) (lk : Lookup) (res st ec iid yr : String)
    (h : ∀ sc ∈ L, dictGet (res, st, ec, iid, yr, sc) lk = Option.none) :
    scanScenarios lk res st ec iid yr L = Option.none := by
  induction L with
  | nil => rfl
  | cons sc rest ih =>
    have h0 := h sc (List.mem_cons_self sc rest)
    simp only [scanScenarios, h0]
    exact ih fun sc2 hs => h sc2 (List.mem_cons_of_mem _ hs)

/-- What the merge loop stores for a projection year is exactly the scenario
scan's result for that year, for an indicator entering the merge with the
empty `future_trends` it was created with. -/
theorem merge_get_scan (lk : Lookup) (res st ec : String) (ind : Indicator)
    (h0 : ind.future_trends = []) (yr : String) (hyr : yr ∈ futureYears) :
    dictGet yr (mergeIndicator lk res st ec ind).future_trends =
      scanScenarios lk res st ec (pyStr ind.indicator_id) yr scenarioOrder := by
  have hne : ("2030" : String) ≠ "2050" := by decide
  have hyr2 : yr = "2030" ∨ yr = "2050" := by simpa [futureYears] using hyr
  simp only [mergeIndicator, futureYears, List.foldl_cons, List.foldl_nil, h0]
  rcases hyr2 with hyr2 | hyr2 <;> subst hyr2
  · cases h50 : scanScenarios lk res st ec (pyStr ind.indicator_id) "2050" scenarioOrder with
    | none =>
      cases h30 : scanScenarios lk res st ec (pyStr ind.indicator_id) "2030" scenarioOrder with
      | none => simp [h30, h50, dictGet]
      | some v => simp [h30, h50, dictGet_dictSet_self]
    | some w =>
      cases h30 : scanScenarios lk res st ec (pyStr ind.indicator_id) "2030" scenarioOrder with
      | none =>
        simp [h30, h50, dictGet_dictSet_ne _ _ hne, dictGet]
      | some v =>
        simp [h30, h50, dictGet_dictSet_ne _ _ hne, dictGet_dictSet_self]
  · cases h30 : scanScenarios lk res st ec (pyStr ind.indicator_id) "2030" scenarioOrder with
    | none =>
      cases h50 : scanScenarios lk res st ec (pyStr ind.indicator_id) "2050" scenarioOrder with
      | none => simp [h30, h50, dictGet]
      | some w => simp [h30, h50, dictGet_dictSet_self]
    | some v =>
      cases h50 : scanScenarios lk res st ec (pyStr ind.indicator_id) "2050" scenarioOrder with
      | none => simp [h30, h50, dictGet_dictSet_ne _ _ (Ne.symm hne), dictGet]
      | some w => simp [h30, h50, dictGet_dictSet_self]

/-- Claim C1 (confirmed): for each projection year in {2030, 2050}, the merged
`future_trends` entry is the lookup entry of the first scenario in the fixed
priority order (verylow, low, mid, high, veryhigh) that has an entry for the
exact composite key — never a later-priority scenario's — and when no scenario
has an entry the year is absent from `future_trends`. -/
theorem claim_C1_scenario_priority (lk : Lookup) (res st ec : String) (ind : Indicator)
    (h0 : ind.future_trends = []) (yr : String) (hyr : yr ∈ futureYears) :
    (∀ n, n < scenarioOrder.length →
      (∀ m, m < n →
        dictGet (res, st, ec, pyStr ind.indicator_id, yr, scenarioOrder.getD m "") lk =
          Option.none) →
      (dictGet (res, st, ec, pyStr ind.indicator_id, yr, scenarioOrder.getD n "") lk).isSome →
      dictGet yr (mergeIndicator lk res st ec ind).future_trends =
        dictGet (res, st, ec, pyStr ind.indicator_id, yr, scenarioOrder.getD n "") lk) ∧
    ((∀ sc ∈ scenarioOrder,
        dictGet (res, st, ec, pyStr ind.indicator_id, yr, sc) lk = Option.none) →
      dictGet yr (mergeIndicator lk res st ec ind).future_trends = Option.none) := by
  constructor
  · intro n hn hmiss hhit
    rw [merge_get_scan lk res st ec ind h0 yr hyr]
    exact scan_first_hit scenarioOrder lk res st ec (pyStr ind.indicator_id) yr n hn
      hmiss hhit
  · intro hall
    rw [merge_get_scan lk res st ec ind h0 yr hyr]
    exact scan_all_none scenarioOrder lk res st ec (pyStr ind.indicator_id) yr hall

/-- A concrete lookup with entries for the `low` and `high` scenarios only. -/
def lkW : Lookup :=
  [(("municipio", "PR", "41", "2", "2030", "low"),
      ⟨PyVal.int 4, PyVal.str "yellow", PyVal.str "Medio"⟩),
   (("municipio", "PR", "41", "2", "2030", "high"),
      ⟨PyVal.int 9, PyVal.str "red", PyVal.str "Alto"⟩)]

/-- A concrete indicator observation as phase 1 builds it. -/
def indW : Indicator := ⟨[("value", PyVal.int 3)], PyVal.str "2", PyVal.int 2020, []⟩

/-- Witness for claim C1: with entries for `low` and `high` only, the merge
stores the `low` entry (priority index 1), not the `high` one. -/
theorem claim_C1_witness :
    dictGet "2030" (mergeIndicator lkW "municipio" "PR" "41" indW).future_trends =
      dictGet ("municipio", "PR", "41", "2", "2030", "low") lkW :=
  (claim_C1_scenario_priority lkW "municipio" "PR" "41" indW rfl "2030"
      (by decide)).1 1 (by decide)
    (fun m hm => by
      have hm0 : m = 0 := by omega
      subst hm0
      decide)
    (by decide)

/-- Appending one record's observation to a state map yields the entity under
the record's (stringified) id with exactly one more indicator observation. -/
theorem appendObservation_count (rec : PresentRec) (eid : String)
    (sm0 : Dict String Entity) :
    (dictGet eid (appendObservation rec eid sm0)).map (fun e => e.indicators.length) =
      some (((dictGet eid sm0).map (fun e => e.indicators.length)).getD 0 + 1) := by
  cases hE : dictGet eid sm0 with
  | none => simp [appendObservation, hE, dictGet_dictSet_self, newEntity]
  | some e0 => simp [appendObservation, hE, dictGet_dictSet_self]

/-- Ingesting a record whose stringified id is non-empty adds exactly one
observation at that id. -/
theorem ingest_adds_observation (res st : String) (m : ResMap) (rec : PresentRec)
    (h : ¬ pyStr (recGet rec "id") = "") :
    obsCount (ingestPresentRec res st m rec) res st (pyStr (recGet rec "id")) =
      obsCount m res st (pyStr (recGet rec "id")) + 1 := by
  simp only [ingestPresentRec, if_neg h]
  cases hres : dictGet res m with
  | none =>
    simp [obsCount, hres, dictGet, dictSet, dictGet_dictSet_self, appendObservation_count]
  | some rm =>
    cases hst : dictGet st rm with
    | none =>
      simp [obsCount, hres, hst, dictGet, dictSet, dictGet_dictSet_self,
        appendObservation_count]
    | some sm =>
      simp [obsCount, hres, hst, dictGet_dictSet_self, appendObservation_count]

/-- Claim C10 (confirmed): a record whose `id` is absent or `null` is not
skipped — `str(None)` is the non-empty string `"None"`, so the guard passes and
the entity keyed by the literal `"None"` gains the observation; the guard skips
exactly the records whose id stringifies to the empty string. -/
theorem claim_C10_none_id (res st : String) (m : ResMap) (rec : PresentRec) :
    (pyStr (recGet rec "id") = "" → ingestPresentRec res st m rec = m) ∧
    (¬ pyStr (recGet rec "id") = "" →
      obsCount (ingestPresentRec res st m rec) res st (pyStr (recGet rec "id")) =
        obsCount m res st (pyStr (recGet rec "id")) + 1) ∧
    (recGet rec "id" = PyVal.none →
      obsCount (ingestPresentRec res st m rec) res st "None" =
        obsCount m res st "None" + 1) := by
  refine ⟨fun h => by simp [ingestPresentRec, h],
    fun h => ingest_adds_observation res st m rec h, fun h => ?_⟩
  have hne : ¬ pyStr (recGet rec "id") = "" := by
    rw [h]
    decide
  have ha := ingest_adds_observation res st m rec hne
  rw [h] at ha
  simpa [pyStr] using ha

/-- Witness for claim C10: a record with no `id` key lands under the entity
key `"None"`. -/
theorem claim_C10_witness :
    obsCount (ingestPresentRec "municipio" "PR" [] [("value", PyVal.int 3)])
        "municipio" "PR" "None" =
      obsCount [] "municipio" "PR" "None" + 1 :=
  (claim_C10_none_id "municipio" "PR" [] [("value", PyVal.int 3)]).2.2 rfl

/-- Evaluating a write list against a filesystem: a path maps to the last
value written to it, or to its prior content when never written. -/
theorem applyWrites_eval (ws : List (String × FileData)) (fs : String → Option FileData)
    (p : String) :
    applyWrites fs ws p =
      match lastVal p ws with
      | some v => some v
      | Option.none => fs p := by
  induction ws generalizing fs with
  | nil => simp [applyWrites, lastVal]
  | cons kv rest ih =>
    obtain ⟨k, v⟩ := kv
    have h1 : applyWrites fs ((k, v) :: rest) =
        applyWrites (fun p2 => if p2 = k then some v else fs p2) rest := rfl
    rw [h1, ih]
    cases hl : lastVal p rest with
    | some w => simp [lastVal, hl]
    | none =>
      simp only [lastVal, hl]
      by_cases hp : p = k
      · simp [hp]
      · simp [hp, Ne.symm hp]

/-- Claim C2, counterexample: ingesting the same two present-value fragments
in the two possible orders yields different consolidated outputs (the entity's
indicator list follows file order), so the result is not independent of the
fragment ingestion order. -/
theorem claim_C2_counterexample :
    consolidate "data" [pfSample "2" "1" 10, pfSample "4" "1" 20] [] ≠
      consolidate "data" [pfSample "4" "1" 20, pfSample "2" "1" 10] [] := by
  decide

/-- Claim C2 (amended): consolidation is a pure, deterministic function of the
ordered fragment list, and re-running it on the same unarchived fragment set is
idempotent — the second run recomputes the same writes, and overwriting with
them leaves every file byte-for-byte identical (no accumulation, no
duplication); the ingestion order of the fragments, however, can affect the
result. -/
theorem claim_C2_idempotent_rerun (dataDir : String) (P : List PresentFile)
    (F : List FutureFile) (ws : List (String × FileData)) (fs : String → Option FileData)
    (h : consolidate dataDir P F = Except.ok ws) :
    applyWrites (applyWrites fs ws) ws = applyWrites fs ws := by
  funext p
  rw [applyWrites_eval, applyWrites_eval]
  cases hl : lastVal p ws <;> simp

/-- The write list of a concrete one-fragment consolidation run. -/
def c2RunWrites : List (String × FileData) :=
  (consolidate "data" [pfSample "2" "1" 10] []).toOption.getD []

/-- Witness for the amended claim C2 at a concrete run applied on the empty
filesystem. -/
theorem claim_C2_witness :
    consolidate "data" [pfSample "2" "1" 10] [] = Except.ok c2RunWrites ∧
    applyWrites (applyWrites (fun _ => Option.none) c2RunWrites) c2RunWrites =
      applyWrites (fun _ => Option.none) c2RunWrites :=
  ⟨rfl, claim_C2_idempotent_rerun "data" [pfSample "2" "1" 10] [] c2RunWrites
    (fun _ => Option.none) rfl⟩

/-- Mapped write effects all satisfy `isWrite` and no `isMove`. -/
theorem filter_effects_writes (ws : List (String × FileData)) :
    (ws.map fun w => Effect.write w.1 w.2).filter Effect.isWrite =
      (ws.map fun w => Effect.write w.1 w.2) ∧
    (ws.map fun w => Effect.write w.1 w.2).filter Effect.isMove = [] := by
  induction ws with
  | nil => exact ⟨rfl, rfl⟩
  | cons w rest ih => simp [Effect.isWrite, Effect.isMove, ih.1, ih.2]

/-- Mapped move effects all satisfy `isMove` and no `isWrite`. -/
theorem filter_effects_moves (g : String → String) (ms : List String) :
    (ms.map fun f => Effect.move f (g f)).filter Effect.isMove =
      (ms.map fun f => Effect.move f (g f)) ∧
    (ms.map fun f => Effect.move f (g f)).filter Effect.isWrite = [] := by
  induction ms with
  | nil => exact ⟨rfl, rfl⟩
  | cons f rest ih => simp [Effect.isWrite, Effect.isMove, ih.1, ih.2]

/-- `moveOne` leaves every other file's presence untouched. -/
theorem moveOne_other (ok : String → Bool) (st : ArchState) (f g : String) (h : g ≠ f) :
    (moveOne ok st f).source g = st.source g ∧
      (moveOne ok st f).archive g = st.archive g := by
  unfold moveOne
  split <;> simp [h]

/-- The archive loop leaves files not in its list untouched. -/
theorem archivePhase_not_mem (ok : String → Bool) (files : List String) (st : ArchState)
    (f : String) (h : f ∉ files) :
    (archivePhase ok files st).source f = st.source f ∧
      (archivePhase ok files st).archive f = st.archive f := by
  induction files generalizing st with
  | nil => exact ⟨rfl, rfl⟩
  | cons g rest ih =>
    have hne : f ≠ g := fun hh => h (by simp [hh])
    have h2 : f ∉ rest := fun hm => h (List.mem_cons_of_mem _ hm)
    have hstep : archivePhase ok (g :: rest) st = archivePhase ok rest (moveOne ok st g) :=
      rfl
    rw [hstep]
    have hmo := moveOne_other ok st g f hne
    have hr := ih (moveOne ok st g) h2
    exact ⟨hr.1.trans hmo.1, hr.2.trans hmo.2⟩

/-- Per-file outcome of the archive loop: a successful rename moves the file
from source to archive, a failed one leaves it in source only, and neither
blocks the others. -/
theorem archivePhase_props (ok : String → Bool) (files : List String) (st : ArchState)
    (hnd : files.Nodup) (hinit : ∀ f ∈ files, st.source f = true ∧ st.archive f = false) :
    ∀ f ∈ files,
      (ok f = true → (archivePhase ok files st).archive f = true ∧
        (archivePhase ok files st).source f = false) ∧
      (ok f = false → (archivePhase ok files st).source f = true ∧
        (archivePhase ok files st).archive f = false) := by
  induction files generalizing st with
  | nil =>
    intro f hf
    cases hf
  | cons g rest ih =>
    intro f hf
    have hg : g ∉ rest := (List.nodup_cons.mp hnd).1
    have hnd2 : rest.Nodup := (List.nodup_cons.mp hnd).2
    have hstep : archivePhase ok (g :: rest) st = archivePhase ok rest (moveOne ok st g) :=
      rfl
    rw [hstep]
    rcases List.mem_cons.mp hf with hfg | hfr
    · subst hfg
      have hpres := archivePhase_not_mem ok rest (moveOne ok st f) f hg
      constructor
      · intro hok
        rw [hpres.1, hpres.2]
        simp [moveOne, hok]
      · intro hok
        rw [hpres.1, hpres.2]
        have hi := hinit f (List.mem_cons_self f rest)
        simp [moveOne, hok, hi.1, hi.2]
    · have hinit2 : ∀ f2 ∈ rest, (moveOne ok st g).source f2 = true ∧
          (moveOne ok st g).archive f2 = false := by
        intro f2 hf2
        have hne : f2 ≠ g := fun hh => hg (hh ▸ hf2)
        have hmo := moveOne_other ok st g f2 hne
        have hi := hinit f2 (List.mem_cons_of_mem _ hf2)
        exact ⟨hmo.1.trans hi.1, hmo.2.trans hi.2⟩
      exact ih (moveOne ok st g) hnd2 hinit2 f hfr

/-- Claim C7 (confirmed): in the consolidation run's effect trace every
entity-file and manifest write precedes every archive move; each move is a
single atomic per-file rename, so after the archive loop a successfully moved
fragment is in the archive and no longer in the source, a fragment whose move
failed stays only in the source (and is only logged as a warning), no fragment
is in both, and one failure does not block the other moves. -/
theorem claim_C7_archive_semantics :
    (∀ (dataDir : String) (P : List PresentFile) (F : List FutureFile)
        (es : List Effect),
      runEffects dataDir P F = Except.ok es →
      es.filter Effect.isWrite ++ es.filter Effect.isMove = es) ∧
    (∀ (ok : String → Bool) (files : List String) (st : ArchState),
      files.Nodup → (∀ f ∈ files, st.source f = true ∧ st.archive f = false) →
      ∀ f ∈ files,
        (ok f = true → (archivePhase ok files st).archive f = true ∧
          (archivePhase ok files st).source f = false) ∧
        (ok f = false → (archivePhase ok files st).source f = true ∧
          (archivePhase ok files st).archive f = false) ∧
        ¬ ((archivePhase ok files st).source f = true ∧
           (archivePhase ok files st).archive f = true)) := by
  constructor
  · intro dataDir P F es h
    unfold runEffects at h
    cases hc : consolidate dataDir P F with
    | error e => rw [hc] at h; simp [Except.map] at h
    | ok ws =>
      rw [hc] at h
      simp only [Except.map, Except.ok.injEq] at h
      subst h
      rw [List.filter_append, List.filter_append,
        (filter_effects_writes ws).1, (filter_effects_writes ws).2,
        (filter_effects_moves _ _).1, (filter_effects_moves _ _).2]
      simp
  · intro ok files st hnd hinit f hf
    have hp := archivePhase_props ok files st hnd hinit f hf
    refine ⟨hp.1, hp.2, fun hboth => ?_⟩
    cases hok : ok f with
    | true =>
      have := (hp.1 hok).2
      rw [this] at hboth
      exact absurd hboth.1 (by simp)
    | false =>
      have := (hp.2 hok).2
      rw [this] at hboth
      exact absurd hboth.2 (by simp)

/-- Initial archive-loop state: every file in the source directory, none
archived. -/
def arch0 : ArchState := ⟨fun _ => true, fun _ => false, 0⟩

/-- A concrete move-success oracle failing only on `"b"`. -/
def okW : String → Bool := fun s => s != "b"

/-- The effect trace of a concrete one-fragment run. -/
def esW : List Effect := (runEffects "data" [pfSample "2" "1" 10] []).toOption.getD []

/-- Witness for claim C7: a concrete run's trace splits into writes then
moves, and with a move failure on `"b"` only, `"a"` ends up archived and `"b"`
stays in the source. -/
theorem claim_C7_witness :
    (esW.filter Effect.isWrite ++ esW.filter Effect.isMove = esW) ∧
    ((archivePhase okW ["a", "b"] arch0).archive "a" = true ∧
      (archivePhase okW ["a", "b"] arch0).source "a" = false) ∧
    ((archivePhase okW ["a", "b"] arch0).source "b" = true ∧
      (archivePhase okW ["a", "b"] arch0).archive "b" = false) :=
  ⟨claim_C7_archive_semantics.1 "data" [pfSample "2" "1" 10] [] esW rfl,
    (claim_C7_archive_semantics.2 okW ["a", "b"] arch0 (by decide)
        (fun _ _ => ⟨rfl, rfl⟩) "a" (by decide)).1 rfl,
    ((claim_C7_archive_semantics.2 okW ["a", "b"] arch0 (by decide)
        (fun _ _ => ⟨rfl, rfl⟩) "b" (by decide)).2.1 rfl)⟩
